import Mathlib

/-!
Shallow embedding of the Zapier browser client
(`scripts/zapier-browser-client.ts`) for verification of its
specification.  The client issues requests against Zapier's internal
JSON API with an authenticated browser session and falls back to
page-driven procedures (network interception / UI control clicking)
when the API is unavailable.

Modelling conventions:
* JavaScript JSON values are modelled by the inductive `Json`; a missing
  object property reads as `Json.undef` (JS `undefined`).  Numbers are
  modelled as `Int` (all numeric values exercised by the claims are
  integral ids/counts).
* JS truthiness (`a || b`, `if (x)`) is modelled by `truthy` / `jOr`.
* The stateful parts (session files on tmpfs, HTTP responses, page
  interception, UI clicking) are modelled by explicit state passing:
  each operation takes the vendor's response(s) and the current
  `SessionState` and returns its result together with the new state.
* Each operation is modelled for an invocation whose session probe has
  already succeeded (i.e. `ensureLoggedIn` passed), which is the regime
  all response-classification claims quantify over; `ensureLoggedIn`
  itself is modelled separately as an event trace.
-/

namespace ZapierClient

/-- JavaScript values as delivered by `response.json()`, plus `undef`
for JS `undefined` (the result of reading an absent property). -/
inductive Json where
  | undef : Json
  | null : Json
  | bool : Bool → Json
  | num : Int → Json
  | str : String → Json
  | arr : List Json → Json
  | obj : List (String × Json) → Json
deriving Repr

/-- JS truthiness: `undefined`, `null`, `false`, `0` and `""` are falsy;
every object and array is truthy. -/
def truthy : Json → Bool
  | .undef => false
  | .null => false
  | .bool b => b
  | .num n => n != 0
  | .str s => s != ""
  | .arr _ => true
  | .obj _ => true

/-- JS `a || b`: the left operand when truthy, otherwise the right. -/
def jOr (a b : Json) : Json := if truthy a then a else b

/-- First-match association-list lookup, reading an absent key as
`undef`.  Parsed JSON objects carry each key at most once, so this is
JS property access. -/
def lookupD : List (String × Json) → String → Json
  | [], _ => .undef
  | (k', v) :: rest, k => if k = k' then v else lookupD rest k

/-- JS property access `o.k`: `undef` when the receiver is not an
object (the code only dereferences parsed-JSON objects). -/
def jGet : Json → String → Json
  | .obj fields, k => lookupD fields k
  | _, _ => (.undef)

/-- JS optional chaining `o?.k`: `undefined` when the receiver is
`null`/`undefined`, plain access otherwise. -/
def jGetQ (j : Json) (k : String) : Json :=
  match j with
  | .undef => .undef
  | .null => .undef
  | j => jGet j k

mutual

/-- JS `String(x)` conversion, as applied by the client to entity ids.
Array elements that are `null`/`undefined` stringify to `""` inside a
joined array, per `Array.prototype.toString`. -/
def jsString : Json → String
  | .undef => "undefined"
  | .null => "null"
  | .bool b => if b then "true" else "false"
  | .num n => toString n
  | .str s => s
  | .obj _ => "[object Object]"
  | .arr xs => String.intercalate "," (jsStringList xs)

/-- Element stringification of `Array.prototype.join`. -/
def jsStringList : List Json → List String
  | [] => []
  | .undef :: rest => "" :: jsStringList rest
  | .null :: rest => "" :: jsStringList rest
  | j :: rest => jsString j :: jsStringList rest

end

mutual

/-- Decidable equality for `Json` (the nested inductive cannot derive
it). -/
def jsonDecEq : (a b : Json) → Decidable (a = b)
  | .undef, .undef => .isTrue rfl
  | .undef, .null => .isFalse Json.noConfusion
  | .undef, .bool _ => .isFalse Json.noConfusion
  | .undef, .num _ => .isFalse Json.noConfusion
  | .undef, .str _ => .isFalse Json.noConfusion
  | .undef, .arr _ => .isFalse Json.noConfusion
  | .undef, .obj _ => .isFalse Json.noConfusion
  | .null, .undef => .isFalse Json.noConfusion
  | .null, .null => .isTrue rfl
  | .null, .bool _ => .isFalse Json.noConfusion
  | .null, .num _ => .isFalse Json.noConfusion
  | .null, .str _ => .isFalse Json.noConfusion
  | .null, .arr _ => .isFalse Json.noConfusion
  | .null, .obj _ => .isFalse Json.noConfusion
  | .bool _, .undef => .isFalse Json.noConfusion
  | .bool _, .null => .isFalse Json.noConfusion
  | .bool x, .bool y =>
    match decEq x y with
    | .isTrue h => .isTrue (by rw [h])
    | .isFalse h => .isFalse (fun hh => h (by injection hh))
  | .bool _, .num _ => .isFalse Json.noConfusion
  | .bool _, .str _ => .isFalse Json.noConfusion
  | .bool _, .arr _ => .isFalse Json.noConfusion
  | .bool _, .obj _ => .isFalse Json.noConfusion
  | .num _, .undef => .isFalse Json.noConfusion
  | .num _, .null => .isFalse Json.noConfusion
  | .num _, .bool _ => .isFalse Json.noConfusion
  | .num x, .num y =>
    match decEq x y with
    | .isTrue h => .isTrue (by rw [h])
    | .isFalse h => .isFalse (fun hh => h (by injection hh))
  | .num _, .str _ => .isFalse Json.noConfusion
  | .num _, .arr _ => .isFalse Json.noConfusion
  | .num _, .obj _ => .isFalse Json.noConfusion
  | .str _, .undef => .isFalse Json.noConfusion
  | .str _, .null => .isFalse Json.noConfusion
  | .str _, .bool _ => .isFalse Json.noConfusion
  | .str _, .num _ => .isFalse Json.noConfusion
  | .str x, .str y =>
    match decEq x y with
    | .isTrue h => .isTrue (by rw [h])
    | .isFalse h => .isFalse (fun hh => h (by injection hh))
  | .str _, .arr _ => .isFalse Json.noConfusion
  | .str _, .obj _ => .isFalse Json.noConfusion
  | .arr _, .undef => .isFalse Json.noConfusion
  | .arr _, .null => .isFalse Json.noConfusion
  | .arr _, .bool _ => .isFalse Json.noConfusion
  | .arr _, .num _ => .isFalse Json.noConfusion
  | .arr _, .str _ => .isFalse Json.noConfusion
  | .arr xs, .arr ys =>
    match jsonListDecEq xs ys with
    | .isTrue h => .isTrue (by rw [h])
    | .isFalse h => .isFalse (fun hh => h (by injection hh))
  | .arr _, .obj _ => .isFalse Json.noConfusion
  | .obj _, .undef => .isFalse Json.noConfusion
  | .obj _, .null => .isFalse Json.noConfusion
  | .obj _, .bool _ => .isFalse Json.noConfusion
  | .obj _, .num _ => .isFalse Json.noConfusion
  | .obj _, .str _ => .isFalse Json.noConfusion
  | .obj _, .arr _ => .isFalse Json.noConfusion
  | .obj fs, .obj gs =>
    match jsonFieldsDecEq fs gs with
    | .isTrue h => .isTrue (by rw [h])
    | .isFalse h => .isFalse (fun hh => h (by injection hh))

/-- Decidable equality for `List Json`. -/
def jsonListDecEq : (xs ys : List Json) → Decidable (xs = ys)
  | [], [] => .isTrue rfl
  | [], _ :: _ => .isFalse List.noConfusion
  | _ :: _, [] => .isFalse List.noConfusion
  | x :: xs, y :: ys =>
    match jsonDecEq x y, jsonListDecEq xs ys with
    | .isTrue h1, .isTrue h2 => .isTrue (by rw [h1, h2])
    | .isFalse h1, _ => .isFalse (fun hh => h1 (by injection hh))
    | _, .isFalse h2 => .isFalse (fun hh => h2 (by injection hh))

/-- Decidable equality for JSON object field lists. -/
def jsonFieldsDecEq : (xs ys : List (String × Json)) → Decidable (xs = ys)
  | [], [] => .isTrue rfl
  | [], _ :: _ => .isFalse List.noConfusion
  | _ :: _, [] => .isFalse List.noConfusion
  | (k1, v1) :: xs, (k2, v2) :: ys =>
    match decEq k1 k2, jsonDecEq v1 v2, jsonFieldsDecEq xs ys with
    | .isTrue h1, .isTrue h2, .isTrue h3 => .isTrue (by rw [h1, h2, h3])
    | .isFalse h1, _, _ =>
      .isFalse (fun hh => h1 (congrArg (fun l => (l.headD ("", .undef)).1) hh))
    | _, .isFalse h2, _ =>
      .isFalse (fun hh => h2 (congrArg (fun l => (l.headD ("", .undef)).2) hh))
    | _, _, .isFalse h3 => .isFalse (fun hh => h3 (by injection hh))

end

instance : DecidableEq Json := jsonDecEq

instance {ε α : Type} [DecidableEq ε] [DecidableEq α] : DecidableEq (Except ε α) :=
  fun a b =>
    match a, b with
    | .ok x, .ok y =>
      match decEq x y with
      | .isTrue h => .isTrue (by rw [h])
      | .isFalse h => .isFalse (fun hh => h (by injection hh))
    | .error x, .error y =>
      match decEq x y with
      | .isTrue h => .isTrue (by rw [h])
      | .isFalse h => .isFalse (fun hh => h (by injection hh))
    | .ok _, .error _ => .isFalse Except.noConfusion
    | .error _, .ok _ => .isFalse Except.noConfusion

/-- JS `x?.length` as used in `z.steps?.length`: array/string length,
`undefined` for `null`/`undefined` receivers and for values without a
`length` property. -/
def jLenQ : Json → Json
  | .arr xs => .num xs.length
  | .str s => .num s.length
  | _ => (.undef)

/-- Output schema of `listZaps` (interface `ZapInfo`).  Fields the
source passes through `String(...)` are `String`; fields assigned a
raw `||`-chain keep their JS value. -/
structure ZapInfo where
  id : String
  title : Json
  status : Json
  lastRun : Json
  stepCount : Json
  updatedAt : Json
deriving DecidableEq, Repr

/-- Output schema of `viewHistory` (interface `ZapRun`). -/
structure ZapRun where
  id : String
  zapId : String
  zapTitle : Json
  status : Json
  startedAt : Json
  finishedAt : Json
  errorMessage : Json
deriving DecidableEq, Repr

/-- One entry of `ZapRunDetail.steps`. -/
structure StepInfo where
  name : Json
  app : Json
  status : Json
  errorMessage : Json
  inputData : Json
  outputData : Json
deriving DecidableEq, Repr

/-- Output schema of `viewError` (interface `ZapRunDetail`). -/
structure ZapRunDetail where
  id : String
  zapId : String
  zapTitle : Json
  status : Json
  startedAt : Json
  finishedAt : Json
  steps : List StepInfo
deriving DecidableEq, Repr

/-- Result of the mutating operations (`replayRun` / `toggleZap`). -/
structure OpResult where
  success : Bool
  message : String
  screenshot : Option String
deriving DecidableEq, Repr

/-- The persisted session artifacts on the tmpfs session directory:
whether the storage-state snapshot file and the CDP live-process
handle file exist. -/
structure SessionState where
  storageState : Bool
  cdpSession : Bool
deriving DecidableEq, Repr

/-- State after `cleanupSessionFiles`: both artifacts removed. -/
def clearedSession : SessionState := ⟨false, false⟩

/-- The private `cleanupSessionFiles` method: unlinks both the CDP
session file and the storage-state file. -/
def cleanupSessionFiles (_ : SessionState) : SessionState := clearedSession

-- ============================================
-- Result Normalizer (the per-item mapping lambdas)
-- ============================================

/-- Per-item normalisation shared verbatim by `listZaps` and its page
fallback `listZapsFromPage` (the two mapping lambdas in the source are
textually identical). -/
def normalizeZap (z : Json) : ZapInfo :=
  { id := jsString (jGet z "id")
    title := jOr (jGet z "title") (jOr (jGet z "name") (.str "Untitled"))
    status := jOr (jGet z "status") (jOr (jGet z "state") (.str "unknown"))
    lastRun := jOr (jGet z "last_successful_run_date")
      (jOr (jGet z "last_run_at") (jGet z "updated_at"))
    stepCount := jOr (jGet z "step_count") (jLenQ (jGet z "steps"))
    updatedAt := jGet z "updated_at" }

/-- Per-item normalisation shared verbatim by `viewHistory` and its
page fallback `viewHistoryFromPage`. -/
def normalizeRun (r : Json) : ZapRun :=
  { id := jsString (jGet r "id")
    zapId := jsString (jOr (jGetQ (jGet r "zap") "id")
      (jOr (jGet r "zap_id") (.str "")))
    zapTitle := jOr (jGetQ (jGet r "zap") "title")
      (jOr (jGet r "zap_title") (.str ""))
    status := jOr (jGet r "status") (.str "unknown")
    startedAt := jOr (jGet r "start_time")
      (jOr (jGet r "started_at") (jOr (jGet r "created_at") (.str "")))
    finishedAt := jOr (jGet r "end_time") (jGet r "finished_at")
    errorMessage := jOr (jGet r "error_message") (jGetQ (jGet r "error") "message") }

/-- Per-step normalisation shared verbatim by `viewError` and its page
fallback `viewErrorFromPage`. -/
def normalizeStep (s : Json) : StepInfo :=
  { name := jOr (jGet s "title")
      (jOr (jGet s "action_type") (jOr (jGet s "name") (.str "Unknown step")))
    app := jOr (jGet s "app") (jOr (jGet s "selected_api") (.str ""))
    status := jOr (jGet s "status") (.str "unknown")
    errorMessage := jOr (jGet s "error_message") (jGetQ (jGet s "error") "message")
    inputData := jOr (jGet s "input_data") (jGet s "input")
    outputData := jOr (jGet s "output_data") (jGet s "output") }

/-- Top-level field extraction of the run-detail record, shared
verbatim by `viewError` and its page fallback. -/
def normalizeDetail (data : Json) (steps : List StepInfo) : ZapRunDetail :=
  { id := jsString (jGet data "id")
    zapId := jsString (jOr (jGetQ (jGet data "zap") "id")
      (jOr (jGet data "zap_id") (.str "")))
    zapTitle := jOr (jGetQ (jGet data "zap") "title")
      (jOr (jGet data "zap_title") (.str ""))
    status := jOr (jGet data "status") (.str "unknown")
    startedAt := jOr (jGet data "start_time") (jOr (jGet data "started_at") (.str ""))
    finishedAt := jOr (jGet data "end_time") (jGet data "finished_at")
    steps := steps }

/-- Container probing of the primary paths:
`data.objects || data.results || data.data || (Array.isArray(data) ? data : [])`.
`some items` when the chain produces an array (so `.map` proceeds);
`none` when it produces a truthy non-array, on which the JS `.map`
call would throw a `TypeError`. -/
def extractItems (data : Json) : Option (List Json) :=
  match jOr (jGet data "objects") (jOr (jGet data "results")
    (jOr (jGet data "data")
      (match data with | .arr xs => .arr xs | _ => .arr []))) with
  | .arr xs => some xs
  | _ => none

/-- Step-container probing of `viewError`:
`(data.steps || data.action_log || []).map(normalizeStep)`; `none`
models the `TypeError` on a truthy non-array container. -/
def extractSteps (data : Json) : Option (List StepInfo) :=
  match jOr (jGet data "steps") (jOr (jGet data "action_log") (.arr [])) with
  | .arr xs => some (xs.map normalizeStep)
  | _ => none

-- ============================================
-- HTTP layer and the API helpers apiGet / apiPatch
-- ============================================

/-- An HTTP response observed by `page.request` (status, status text,
body text, parsed JSON body). -/
structure HttpResp where
  status : Nat
  statusText : String
  body : String
  json : Json
deriving DecidableEq, Repr

/-- Playwright `response.ok()`: status in the range 200-299. -/
def respOk (r : HttpResp) : Bool := 200 ≤ r.status && r.status ≤ 299

/-- Outcome of issuing a request: either a response arrived or the
request itself rejected (network-level error, which JS `try` blocks
catch). -/
inductive ReqOutcome where
  | resp : HttpResp → ReqOutcome
  | netErr : String → ReqOutcome

/-- The authentication-failure message thrown by `apiGet`/`apiPatch`
on 401/403 (identical string in both helpers). -/
def authFailMsg (status : Nat) : String :=
  "Authentication failed (" ++ toString status ++ "). Session cleared — retry to re-login."

/-- Substring test modelling JS `String.prototype.includes`. -/
def strIncludes (s pat : String) : Bool := decide (pat.data <:+: s.data)

/-- Response classification of the private `apiGet` helper: 2xx
parses JSON; 401/403 clears the session artifacts and throws the
authentication-failure message; any other non-2xx throws a generic
request-failure message carrying the status and truncated body. -/
def apiGetStep (resp : HttpResp) (s : SessionState) :
    Except String Json × SessionState :=
  if 200 ≤ resp.status ∧ resp.status ≤ 299 then (.ok resp.json, s)
  else if resp.status = 401 ∨ resp.status = 403 then
    (.error (authFailMsg resp.status), cleanupSessionFiles s)
  else
    (.error ("API request failed: " ++ toString resp.status ++ " " ++
      resp.statusText ++ " — " ++ resp.body.take 500), s)

/-- Response classification of the private `apiPatch` helper; same
shape as `apiGet` except the generic message prefix, plus the
network-rejection case which propagates out of the helper. -/
def apiPatchStep (out : ReqOutcome) (s : SessionState) :
    Except String Json × SessionState :=
  match out with
  | .netErr m => (.error m, s)
  | .resp r =>
    if 200 ≤ r.status ∧ r.status ≤ 299 then (.ok r.json, s)
    else if r.status = 401 ∨ r.status = 403 then
      (.error (authFailMsg r.status), cleanupSessionFiles s)
    else
      (.error ("API PATCH failed: " ++ toString r.status ++ " " ++
        r.statusText ++ " — " ++ r.body.take 500), s)

/-- The endpoint-absence test each read operation applies to a caught
error: `apiError.message.includes("404") || apiError.message.includes("Not Found")`. -/
def is404Error (msg : String) : Bool :=
  strIncludes msg "404" || strIncludes msg "Not Found"

-- ============================================
-- Page-interception fallbacks for the read operations
-- ============================================

/-- A network response seen by the `page.on("response", ...)` listener
during the fallback navigation; `json` is `none` when the body is not
JSON (`response.json()` throws and the listener skips it). -/
structure PageResp where
  url : String
  status : Nat
  json : Option Json

/-- Listener predicate of `listZapsFromPage`: the URL contains
`"/zap"` and `"api"`, the status is 200, the body is JSON, and the
container chain
`json.objects || json.results || json.data || (Array.isArray(json) ? json : null)`
yields a value passing `zaps && zaps.length > 0`.  Returns the resolved
`zaps` value. -/
def listHeuristic (p : PageResp) : Option Json :=
  if strIncludes p.url "/zap" && strIncludes p.url "api" && p.status == 200 then
    match p.json with
    | none => none
    | some j =>
      let zaps := jOr (jGet j "objects") (jOr (jGet j "results")
        (jOr (jGet j "data") (match j with | .arr xs => .arr xs | _ => .null)))
      if truthy zaps && (match zaps with
          | .arr xs => decide (0 < xs.length)
          | .str s => decide (0 < s.length)
          | _ => false) then some zaps else none
  else none

/-- Listener predicate of `viewHistoryFromPage`: URL contains `"run"`
or `"history"`, plus `"api"`; otherwise as `listHeuristic`. -/
def historyHeuristic (p : PageResp) : Option Json :=
  if (strIncludes p.url "run" || strIncludes p.url "history") &&
      strIncludes p.url "api" && p.status == 200 then
    match p.json with
    | none => none
    | some j =>
      let runs := jOr (jGet j "objects") (jOr (jGet j "results")
        (jOr (jGet j "data") (match j with | .arr xs => .arr xs | _ => .null)))
      if truthy runs && (match runs with
          | .arr xs => decide (0 < xs.length)
          | .str s => decide (0 < s.length)
          | _ => false) then some runs else none
  else none

/-- Listener predicate of `viewErrorFromPage`: URL contains the run
id, status 200, and the JSON body satisfies `json.id || json.status`. -/
def detailHeuristic (runId : String) (p : PageResp) : Option Json :=
  if strIncludes p.url runId && p.status == 200 then
    match p.json with
    | none => none
    | some j => if truthy (jOr (jGet j "id") (jGet j "status")) then some j else none
  else none

/-- The `listZapsFromPage` fallback: the interception promise resolves
with the first listener match among the responses arriving during the
navigation, or with `[]` on the 15s timeout (modelled as the absence
of any match); the resolved items are then normalized.  A resolved
truthy non-array (a string container) would make the JS `.map` throw. -/
def listZapsFromPageOp (rs : List PageResp) : Except String (List ZapInfo) :=
  match rs.findSome? listHeuristic with
  | some (.arr xs) => .ok (xs.map normalizeZap)
  | some _ => .error "zaps.map is not a function"
  | none => .ok []

/-- JS `options?.limit || 25`: the default applies when no limit is
given (and for a limit of 0, which is falsy). -/
def effLimit : Option Nat → Nat
  | none => 25
  | some n => if n = 0 then 25 else n

/-- Options record of `viewHistory` (`{zapId?, limit?}`). -/
structure HistoryOptions where
  zapId : Option String
  limit : Option Nat

/-- The `viewHistoryFromPage` fallback: as `listZapsFromPageOp`, but
the resolved run list is truncated client-side by
`runs.slice(0, limit)` before normalisation. -/
def viewHistoryFromPageOp (opts : HistoryOptions) (rs : List PageResp) :
    Except String (List ZapRun) :=
  match rs.findSome? historyHeuristic with
  | some (.arr xs) => .ok ((xs.take (effLimit opts.limit)).map normalizeRun)
  | some _ => .error "runs.slice(0, limit).map is not a function"
  | none => .ok []

/-- The `viewErrorFromPage` fallback: resolve the first response whose
URL contains the run id; on the 15s timeout (no match) fall back to a
record synthesised from the page body text. -/
def viewErrorFromPageOp (runId pageText : String) (rs : List PageResp) :
    Except String ZapRunDetail :=
  match rs.findSome? (detailHeuristic runId) with
  | some data =>
    match extractSteps data with
    | some steps => .ok (normalizeDetail data steps)
    | none => .error "steps.map is not a function"
  | none =>
    .ok { id := runId, zapId := "", zapTitle := .str "", status := .str "unknown",
          startedAt := .str "", finishedAt := .undef,
          steps := [{ name := .str "Page content", app := .str "",
                      status := .str "error",
                      errorMessage := .str (pageText.take 2000),
                      inputData := .undef, outputData := .undef }] }

-- ============================================
-- Dual-path read operations
-- ============================================

/-- Body of the `try` block of `listZaps`: the `apiGet` call, the
container probe and the normalising map (a `TypeError` thrown by the
map is also caught by the surrounding `catch`). -/
def listZapsTry (resp : HttpResp) (s : SessionState) :
    Except String (List ZapInfo) × SessionState :=
  match apiGetStep resp s with
  | (.ok data, s1) =>
    match extractItems data with
    | some items => (.ok (items.map normalizeZap), s1)
    | none => (.error "zaps.map is not a function", s1)
  | (.error m, s1) => (.error m, s1)

/-- The public `listZaps`: primary API path, with the page fallback on
a "404"/"Not Found" error message.  The third component counts the
invocations of `listZapsFromPage`. -/
def listZapsOp (resp : HttpResp) (rs : List PageResp) (s : SessionState) :
    Except String (List ZapInfo) × SessionState × Nat :=
  match listZapsTry resp s with
  | (.ok r, s1) => (.ok r, s1, 0)
  | (.error m, s1) =>
    if is404Error m then (listZapsFromPageOp rs, s1, 1) else (.error m, s1, 0)

/-- Body of the `try` block of `viewHistory` (primary path; no
client-side truncation of the parsed item list). -/
def viewHistoryTry (resp : HttpResp) (s : SessionState) :
    Except String (List ZapRun) × SessionState :=
  match apiGetStep resp s with
  | (.ok data, s1) =>
    match extractItems data with
    | some items => (.ok (items.map normalizeRun), s1)
    | none => (.error "runs.map is not a function", s1)
  | (.error m, s1) => (.error m, s1)

/-- The public `viewHistory`: primary API path with page fallback on a
"404"/"Not Found" error. -/
def viewHistoryOp (opts : HistoryOptions) (resp : HttpResp) (rs : List PageResp)
    (s : SessionState) : Except String (List ZapRun) × SessionState × Nat :=
  match viewHistoryTry resp s with
  | (.ok r, s1) => (.ok r, s1, 0)
  | (.error m, s1) =>
    if is404Error m then (viewHistoryFromPageOp opts rs, s1, 1) else (.error m, s1, 0)

/-- Body of the `try` block of `viewError`. -/
def viewErrorTry (resp : HttpResp) (s : SessionState) :
    Except String ZapRunDetail × SessionState :=
  match apiGetStep resp s with
  | (.ok data, s1) =>
    match extractSteps data with
    | some steps => (.ok (normalizeDetail data steps), s1)
    | none => (.error "steps.map is not a function", s1)
  | (.error m, s1) => (.error m, s1)

/-- The public `viewError`: primary API path with page fallback on a
"404"/"Not Found" error. -/
def viewErrorOp (runId pageText : String) (resp : HttpResp) (rs : List PageResp)
    (s : SessionState) : Except String ZapRunDetail × SessionState × Nat :=
  match viewErrorTry resp s with
  | (.ok d, s1) => (.ok d, s1, 0)
  | (.error m, s1) =>
    if is404Error m then (viewErrorFromPageOp runId pageText rs, s1, 1)
    else (.error m, s1, 0)

-- ============================================
-- Mutating operations (API first, UI fallback)
-- ============================================

/-- Durable screenshot directory (`SCREENSHOT_DIR` constant). -/
def screenshotDir : String := "/home/USER/biz/.playwright-mcp"

/-- The ordered candidate selectors `replayRun` probes for a Replay
control. -/
def replaySelectors : List String :=
  ["button:has-text(\"Replay\")",
   "button:has-text(\"Re-run\")",
   "button:has-text(\"Retry\")",
   "[data-testid*=\"replay\"]",
   "a:has-text(\"Replay\")"]

/-- The ordered candidate selectors `toggleZap` probes for the row
toggle of a given Zap. -/
def toggleSelectors (zapId : String) : List String :=
  ["[data-zap-id=\"" ++ zapId ++ "\"] input[type=\"checkbox\"]",
   "[data-zap-id=\"" ++ zapId ++ "\"] [role=\"switch\"]",
   "[data-zap-id=\"" ++ zapId ++ "\"] button[aria-label*=\"toggle\" i]"]

/-- Abstraction of the driven page during `replayRun`'s UI fallback:
which selectors `page.$` resolves to a visible element, and whether a
confirmation dialog appears afterwards (the dialog affects only the
page, never the returned result). -/
structure PageUi where
  visibleMatch : String → Bool
  confirmVisible : Bool

/-- Abstraction of the page during `toggleZap`'s UI fallback: selector
matches (`page.$`, existence only — no visibility check in the
source), the result of the `page.evaluate` row-content search, and the
confirmation dialog. -/
structure ToggleUi where
  visibleMatch : String → Bool
  evaluateFound : Bool
  confirmVisible : Bool

/-- UI fallback of `replayRun`: try the candidate selectors in order;
capture a screenshot; if no control was clicked return a
`success: false` result naming the screenshot, otherwise confirm an
optional dialog, capture a second screenshot and report success.  The
`t1`/`t2` arguments are the `Date.now()` millisecond timestamps baked
into the two screenshot filenames. -/
def replayUiFallback (runId : String) (ui : PageUi) (t1 t2 : Nat)
    (s : SessionState) : OpResult × SessionState :=
  let clicked := replaySelectors.any ui.visibleMatch
  let shot := screenshotDir ++ "/zapier-replay-" ++ toString t1 ++ ".png"
  if !clicked then
    ({ success := false,
       message := "Could not find Replay button for run " ++ runId ++ ". See screenshot.",
       screenshot := some shot }, s)
  else
    ({ success := true,
       message := "Run " ++ runId ++ " replay initiated via UI.",
       screenshot := some (screenshotDir ++ "/zapier-replay-confirm-" ++ toString t2 ++ ".png") }, s)

/-- The public `replayRun`: a raw `page.request.post` to the replay
endpoint, succeeding only when `response.ok()`; any non-ok response or
network rejection falls through to the UI fallback.  Note the API
branch inspects only `ok()` — it never classifies 401/403 and never
touches the session files. -/
def replayRunOp (runId : String) (post : ReqOutcome) (ui : PageUi) (t1 t2 : Nat)
    (s : SessionState) : OpResult × SessionState :=
  match post with
  | .resp r =>
    if respOk r then
      ({ success := true,
         message := "Run " ++ runId ++ " replayed successfully via API.",
         screenshot := none }, s)
    else replayUiFallback runId ui t1 t2 s
  | .netErr _ => replayUiFallback runId ui t1 t2 s

/-- UI fallback of `toggleZap`: try the three row selectors, then the
`page.evaluate` row-content search; screenshot; report
`success: false` naming it when nothing was toggled, otherwise confirm
an optional dialog, take the confirmation screenshot and report
success. -/
def toggleUiFallback (zapId : String) (enable : Bool) (ui : ToggleUi) (t1 t2 : Nat)
    (s : SessionState) : OpResult × SessionState :=
  let toggled0 := (toggleSelectors zapId).any ui.visibleMatch
  let toggled := if toggled0 then true else ui.evaluateFound
  let shot := screenshotDir ++ "/zapier-toggle-" ++ toString t1 ++ ".png"
  if !toggled then
    ({ success := false,
       message := "Could not find toggle for Zap " ++ zapId ++ ". See screenshot.",
       screenshot := some shot }, s)
  else
    ({ success := true,
       message := "Zap " ++ zapId ++ " " ++ (if enable then "enabled" else "disabled") ++ " via UI.",
       screenshot := some (screenshotDir ++ "/zapier-toggle-confirm-" ++ toString t2 ++ ".png") }, s)

/-- The public `toggleZap`: `apiPatch` first; the surrounding `catch`
swallows every error `apiPatch` throws (including the
authentication-failure one, whose session cleanup still takes effect)
and falls through to the UI fallback. -/
def toggleZapOp (zapId : String) (enable : Bool) (patch : ReqOutcome) (ui : ToggleUi)
    (t1 t2 : Nat) (s : SessionState) : OpResult × SessionState :=
  match apiPatchStep patch s with
  | (.ok _, s1) =>
    ({ success := true,
       message := "Zap " ++ zapId ++ " " ++ (if enable then "enabled" else "disabled") ++ " via API.",
       screenshot := none }, s1)
  | (.error _, s1) => toggleUiFallback zapId enable ui t1 t2 s1

-- ============================================
-- Session controller: ensureBrowser / ensureLoggedIn
-- ============================================

/-- Credentials section of `config.json` (`zapier?: {email, password}`). -/
structure Config where
  zapier : Option (String × String)

/-- The hard configuration error thrown by `getCredentials`. -/
def credsMissingMsg : String :=
  "Zapier credentials not found in config.json. " ++
  "Add a \"zapier\" section with \"email\" and \"password\" fields."

/-- The private `getCredentials`: requires both `email` and `password`
truthy (non-empty), else throws the configuration error. -/
def getCredentials (c : Config) : Except String (String × String) :=
  match c.zapier with
  | some (e, p) => if e ≠ "" ∧ p ≠ "" then .ok (e, p) else .error credsMissingMsg
  | none => .error credsMissingMsg

/-- Observable steps of `ensureLoggedIn` relevant to the ordering
claims: browser interactions, the session-validity probe, and the
navigation to the login page that starts the login flow. -/
inductive LoginEvent where
  | cdpReconnect : LoginEvent
  | browserLaunch : LoginEvent
  | sessionProbe : Bool → LoginEvent
  | navigateLogin : LoginEvent
deriving DecidableEq, Repr

/-- Environment of one `ensureLoggedIn` call on a freshly constructed
client (`browser`/`page` fields still null): whether a CDP
reconnection would succeed with a live context and page, and whether
the `/api/v3/me` session probe reports the session valid. -/
structure LoginEnv where
  reconnectOk : Bool
  sessionValid : Bool

/-- The private `ensureBrowser` as an event trace: CDP fast path when
the handle file exists (clearing both session files and launching
fresh when reconnection fails), else a fresh launch restoring the
storage state; a successful launch re-persists the CDP handle. -/
def ensureBrowserTrace (env : LoginEnv) (s : SessionState) :
    List LoginEvent × SessionState :=
  if s.cdpSession then
    if env.reconnectOk then ([.cdpReconnect], s)
    else ([.cdpReconnect, .browserLaunch], { clearedSession with cdpSession := true })
  else ([.browserLaunch], { s with cdpSession := true })

/-- The public `ensureLoggedIn`, traced up to the start of the login
flow: `ensureBrowser` first, then the session probe; a valid session
returns immediately; an invalid one reads the credentials — throwing
the configuration error when they are absent — and only then navigates
to the login page (the login state machine past that navigation is not
needed by the claims). -/
def ensureLoggedInTrace (cfg : Config) (env : LoginEnv) (s : SessionState) :
    List LoginEvent × Except String Unit × SessionState :=
  let (evs, s1) := ensureBrowserTrace env s
  if env.sessionValid then (evs ++ [.sessionProbe true], .ok (), s1)
  else
    match getCredentials cfg with
    | .error m => (evs ++ [.sessionProbe false], .error m, s1)
    | .ok _ => (evs ++ [.sessionProbe false, .navigateLogin], .ok (), s1)

-- ============================================
-- Helper lemmas
-- ============================================

theorem lookupD_cons_eq {v : Json} {base : List (String × Json)} {k : String} :
    lookupD ((k, v) :: base) k = v := by
  simp [lookupD]

theorem lookupD_cons_ne {v : Json} {base : List (String × Json)} {k k' : String}
    (h : k ≠ k') : lookupD ((k', v) :: base) k = lookupD base k := by
  simp [lookupD, h]

theorem jOr_of_truthy {a : Json} (b : Json) (h : truthy a = true) : jOr a b = a := by
  simp [jOr, h]

theorem jOr_undef (b : Json) : jOr .undef b = b := rfl

theorem strIncludes_append_right (s t pat : String) (h : strIncludes s pat = true) :
    strIncludes (s ++ t) pat = true := by
  simp only [strIncludes, decide_eq_true_eq] at h ⊢
  have hd : (s ++ t).data = s.data ++ t.data := rfl
  rw [hd]
  exact h.trans ⟨[], t.data, by simp⟩

theorem is404Error_request_failed (st bd : String) :
    is404Error ("API request failed: " ++ toString (404 : Nat) ++ " " ++ st ++
      " — " ++ bd) = true := by
  have h1 : strIncludes ("API request failed: " ++ toString (404 : Nat)) "404" = true := by
    decide
  have h2 := strIncludes_append_right _ " " _ h1
  have h3 := strIncludes_append_right _ st _ h2
  have h4 := strIncludes_append_right _ " — " _ h3
  have h5 := strIncludes_append_right _ bd _ h4
  simp only [is404Error, String.append_assoc] at h5 ⊢
  simp [h5]

-- ============================================
-- Claims
-- ============================================

/-- C1, counterexample: a Zap whose vendor status is `"paused"` — outside
the four lifecycle values — is passed through verbatim by `listZaps`, not
normalized to the sentinel `"unknown"`. -/
theorem listZaps_status_passthrough_cx :
    listZapsOp
      ⟨200, "OK", "",
        .obj [("objects", .arr [.obj [("id", .num 7), ("status", .str "paused")]])]⟩
      [] ⟨true, true⟩ =
      (.ok [⟨"7", .str "Untitled", .str "paused", .undef, .undef, .undef⟩],
        ⟨true, true⟩, 0) ∧
    Json.str "paused" ≠ .str "on" ∧ Json.str "paused" ≠ .str "off" ∧
    Json.str "paused" ≠ .str "draft" ∧ Json.str "paused" ≠ .str "error" ∧
    Json.str "paused" ≠ .str "unknown" := by
  decide

/-- C1, amended: the normalized `status` (identical normalizer on the
primary and page-interception paths of `listZaps`) is the raw `status`
or `state` vendor value whenever one of them is truthy — even a value
outside the four lifecycle values passes through — and is the sentinel
`"unknown"` exactly when neither vendor field is truthy; normalisation
is a total function, so no input raises. -/
theorem normalizeZap_status_passthrough (z : Json) :
    ((truthy (jGet z "status") = false ∧ truthy (jGet z "state") = false) →
      (normalizeZap z).status = .str "unknown") ∧
    (truthy (jGet z "status") = true → (normalizeZap z).status = jGet z "status") ∧
    (truthy (jGet z "status") = false → truthy (jGet z "state") = true →
      (normalizeZap z).status = jGet z "state") := by
  refine ⟨fun ⟨h1, h2⟩ => ?_, fun h1 => ?_, fun h1 h2 => ?_⟩ <;>
    simp [normalizeZap, jOr, h1]
  · simp [h2]
  · simp [h2]

/-- C1, witness for the amended theorem at a concrete input. -/
theorem normalizeZap_status_passthrough_witness :
    (normalizeZap (.obj [("id", .num 7)])).status = .str "unknown" :=
  (normalizeZap_status_passthrough (.obj [("id", .num 7)])).1 ⟨rfl, rfl⟩

/-- C2, counterexample: `replayRun` against a 401 primary response
leaves the session artifacts untouched (no cleanup) and returns the UI
fallback's structured result instead of raising the
authentication-failure error. -/
theorem replayRun_auth401_no_cleanup_cx :
    replayRunOp "9" (.resp ⟨401, "Unauthorized", "", .null⟩)
      ⟨fun _ => false, false⟩ 0 0 ⟨true, true⟩ =
      ({ success := false,
         message := "Could not find Replay button for run 9. See screenshot.",
         screenshot := some (screenshotDir ++ "/zapier-replay-0.png") },
        ⟨true, true⟩) ∧
    (⟨true, true⟩ : SessionState) ≠ clearedSession := by
  constructor
  · decide
  · decide

/-- C2, amended: a 401/403 primary response clears the session
artifacts and raises the authentication-failure message for the read
operations (`listZaps`, `viewHistory`, `viewError`), whose `apiGet`
helper performs both; for `toggleZap` the artifacts are cleared by
`apiPatch` but the raised error is swallowed by the operation's
`catch`, which runs the UI fallback instead; for `replayRun` a 401/403
response neither clears the artifacts nor raises — the operation falls
through to the UI fallback with the session files intact. -/
theorem auth_failure_classification (resp : HttpResp) (rs : List PageResp)
    (runId zapId pageText : String) (opts : HistoryOptions) (uiR : PageUi)
    (uiT : ToggleUi) (t1 t2 u1 u2 : Nat) (s : SessionState) (enable : Bool)
    (hst : resp.status = 401 ∨ resp.status = 403) :
    listZapsOp resp rs s = (.error (authFailMsg resp.status), clearedSession, 0) ∧
    viewHistoryOp opts resp rs s = (.error (authFailMsg resp.status), clearedSession, 0) ∧
    viewErrorOp runId pageText resp rs s =
      (.error (authFailMsg resp.status), clearedSession, 0) ∧
    toggleZapOp zapId enable (.resp resp) uiT u1 u2 s =
      toggleUiFallback zapId enable uiT u1 u2 clearedSession ∧
    replayRunOp runId (.resp resp) uiR t1 t2 s = replayUiFallback runId uiR t1 t2 s := by
  obtain ⟨st, sx, bd, js⟩ := resp
  simp only at hst
  have hna1 : is404Error (authFailMsg 401) = false := by decide
  have hna3 : is404Error (authFailMsg 403) = false := by decide
  rcases hst with h | h <;> subst h <;>
    refine ⟨?_, ?_, ?_, ?_, ?_⟩ <;>
    simp [listZapsOp, listZapsTry, viewHistoryOp, viewHistoryTry, viewErrorOp,
      viewErrorTry, toggleZapOp, apiGetStep, apiPatchStep, replayRunOp, respOk,
      cleanupSessionFiles, hna1, hna3]

/-- C2, witness for the amended theorem at a concrete 401 response. -/
theorem auth_failure_classification_witness :
    listZapsOp ⟨401, "Unauthorized", "", .null⟩ [] ⟨true, true⟩ =
      (.error (authFailMsg 401), clearedSession, 0) ∧
    viewHistoryOp ⟨none, none⟩ ⟨401, "Unauthorized", "", .null⟩ [] ⟨true, true⟩ =
      (.error (authFailMsg 401), clearedSession, 0) ∧
    viewErrorOp "9" "" ⟨401, "Unauthorized", "", .null⟩ [] ⟨true, true⟩ =
      (.error (authFailMsg 401), clearedSession, 0) ∧
    toggleZapOp "55" true (.resp ⟨401, "Unauthorized", "", .null⟩)
      ⟨fun _ => false, false, false⟩ 0 0 ⟨true, true⟩ =
      toggleUiFallback "55" true ⟨fun _ => false, false, false⟩ 0 0 clearedSession ∧
    replayRunOp "9" (.resp ⟨401, "Unauthorized", "", .null⟩)
      ⟨fun _ => false, false⟩ 0 0 ⟨true, true⟩ =
      replayUiFallback "9" ⟨fun _ => false, false⟩ 0 0 ⟨true, true⟩ :=
  auth_failure_classification ⟨401, "Unauthorized", "", .null⟩ [] "9" "55" ""
    ⟨none, none⟩ ⟨fun _ => false, false⟩ ⟨fun _ => false, false, false⟩
    0 0 0 0 ⟨true, true⟩ true (Or.inl rfl)

/-- C3, counterexample: with an invalid session and no zapier
credentials record, `ensureLoggedIn` launches the browser first and
raises the configuration error only afterwards — the error does not
precede the browser launch. -/
theorem ensureLoggedIn_launch_before_creds_cx :
    ensureLoggedInTrace ⟨none⟩ ⟨false, false⟩ ⟨false, false⟩ =
      ([.browserLaunch, .sessionProbe false], .error credsMissingMsg, ⟨false, true⟩) ∧
    LoginEvent.browserLaunch ∈
      [LoginEvent.browserLaunch, LoginEvent.sessionProbe false] := by
  decide

/-- C3, amended: when a login-requiring operation finds the session
invalid and the configuration lacks a zapier credentials record, the
hard configuration error is raised before any navigation to the login
page — but only after the browser has been ensured (a fresh launch or a
CDP reconnection attempt always precedes the credentials check). -/
theorem creds_error_after_browser_ensure (cfg : Config) (env : LoginEnv)
    (s : SessionState) (hc : getCredentials cfg = .error credsMissingMsg)
    (hv : env.sessionValid = false) :
    (ensureLoggedInTrace cfg env s).2.1 = .error credsMissingMsg ∧
    LoginEvent.navigateLogin ∉ (ensureLoggedInTrace cfg env s).1 ∧
    (LoginEvent.browserLaunch ∈ (ensureLoggedInTrace cfg env s).1 ∨
      LoginEvent.cdpReconnect ∈ (ensureLoggedInTrace cfg env s).1) := by
  obtain ⟨ro, sv⟩ := env
  simp only at hv
  subst hv
  obtain ⟨ss, cd⟩ := s
  cases cd <;> cases ro <;>
    simp [ensureLoggedInTrace, ensureBrowserTrace, hc]

/-- C3, witness for the amended theorem at a concrete input. -/
theorem creds_error_after_browser_ensure_witness :
    (ensureLoggedInTrace ⟨none⟩ ⟨true, false⟩ ⟨true, true⟩).2.1 = .error credsMissingMsg ∧
    LoginEvent.navigateLogin ∉ (ensureLoggedInTrace ⟨none⟩ ⟨true, false⟩ ⟨true, true⟩).1 ∧
    (LoginEvent.browserLaunch ∈ (ensureLoggedInTrace ⟨none⟩ ⟨true, false⟩ ⟨true, true⟩).1 ∨
      LoginEvent.cdpReconnect ∈ (ensureLoggedInTrace ⟨none⟩ ⟨true, false⟩ ⟨true, true⟩).1) :=
  creds_error_after_browser_ensure ⟨none⟩ ⟨true, false⟩ ⟨true, true⟩ rfl rfl

/-- C4: a primary-path 404 makes each read operation return exactly its
page fallback's result, invoking the fallback exactly once, leaving the
session artifacts unchanged and surfacing no error for the 404 itself. -/
theorem fallback_on_404_exactly_once (resp : HttpResp) (rs : List PageResp)
    (runId pageText : String) (opts : HistoryOptions) (s : SessionState)
    (h404 : resp.status = 404) :
    listZapsOp resp rs s = (listZapsFromPageOp rs, s, 1) ∧
    viewHistoryOp opts resp rs s = (viewHistoryFromPageOp opts rs, s, 1) ∧
    viewErrorOp runId pageText resp rs s = (viewErrorFromPageOp runId pageText rs, s, 1) := by
  have hmsg : apiGetStep resp s =
      (.error ("API request failed: " ++ toString (404 : Nat) ++ " " ++
        resp.statusText ++ " — " ++ resp.body.take 500), s) := by
    unfold apiGetStep
    rw [h404]
    norm_num
  have h404e := is404Error_request_failed resp.statusText (resp.body.take 500)
  refine ⟨?_, ?_, ?_⟩ <;>
    simp [listZapsOp, listZapsTry, viewHistoryOp, viewHistoryTry, viewErrorOp,
      viewErrorTry, hmsg, h404e]

/-- C4, witness at a concrete 404 response. -/
theorem fallback_on_404_exactly_once_witness :
    listZapsOp ⟨404, "Not Found", "", .null⟩ [] ⟨true, true⟩ =
      (listZapsFromPageOp [], ⟨true, true⟩, 1) ∧
    viewHistoryOp ⟨none, none⟩ ⟨404, "Not Found", "", .null⟩ [] ⟨true, true⟩ =
      (viewHistoryFromPageOp ⟨none, none⟩ [], ⟨true, true⟩, 1) ∧
    viewErrorOp "9" "" ⟨404, "Not Found", "", .null⟩ [] ⟨true, true⟩ =
      (viewErrorFromPageOp "9" "" [], ⟨true, true⟩, 1) :=
  fallback_on_404_exactly_once ⟨404, "Not Found", "", .null⟩ [] "9" ""
    ⟨none, none⟩ ⟨true, true⟩ rfl

/-- C5: `viewHistory({zapId: "123", limit: 10})` against the primary
response `{objects: [{id: 9, zap_id: "123", status: "error",
start_time: "2024-01-01T00:00:00Z"}]}` yields exactly one run record
with string id `"9"`, `zapId = "123"` and `status = "error"` — the
numeric vendor id is converted to a string. -/
theorem viewHistory_scenario_123 :
    viewHistoryOp ⟨some "123", some 10⟩
      ⟨200, "OK", "",
        .obj [("objects", .arr [.obj [("id", .num 9), ("zap_id", .str "123"),
          ("status", .str "error"), ("start_time", .str "2024-01-01T00:00:00Z")]])]⟩
      [] ⟨true, true⟩ =
    (.ok [⟨"9", "123", .str "", .str "error", .str "2024-01-01T00:00:00Z", .undef, .undef⟩],
      ⟨true, true⟩, 0) := by
  decide

/-- C6: `toggleZap("55", false)` whose primary PATCH fails and whose UI
fallback locates and clicks a matching toggle control returns
`success: true` with the exact message `"Zap 55 disabled via UI."` and
a screenshot path. -/
theorem toggleZap_55_disable_ui_scenario (patch : ReqOutcome) (ui : ToggleUi)
    (t1 t2 : Nat) (s : SessionState)
    (hpatch : ∃ m s1, apiPatchStep patch s = (Except.error m, s1))
    (hfound : (toggleSelectors "55").any ui.visibleMatch = true) :
    (toggleZapOp "55" false patch ui t1 t2 s).1 =
      { success := true, message := "Zap 55 disabled via UI.",
        screenshot := some (screenshotDir ++ "/zapier-toggle-confirm-" ++
          toString t2 ++ ".png") } := by
  obtain ⟨m, s1, hp⟩ := hpatch
  have hm : "Zap " ++ "55" ++ " " ++ "disabled" ++ " via UI." =
      "Zap 55 disabled via UI." := by decide
  simp [toggleZapOp, hp, toggleUiFallback, hfound, hm]

/-- C6, witness at a concrete failing PATCH and matching toggle. -/
theorem toggleZap_55_disable_ui_scenario_witness :
    (toggleZapOp "55" false (.netErr "x") ⟨fun _ => true, false, false⟩
      0 7 ⟨true, true⟩).1 =
      { success := true, message := "Zap 55 disabled via UI.",
        screenshot := some (screenshotDir ++ "/zapier-toggle-confirm-" ++
          toString 7 ++ ".png") } :=
  toggleZap_55_disable_ui_scenario (.netErr "x") ⟨fun _ => true, false, false⟩
    0 7 ⟨true, true⟩ ⟨"x", ⟨true, true⟩, rfl⟩ (by decide)

/-- C7: when no intercepted network response matches the content
heuristic within the 15s timeout (modelled as the absence of a match
among the responses of the navigation), both read-operation fallbacks
resolve with an empty, correctly-typed collection rather than an
error. -/
theorem page_fallback_timeout_empty (rs : List PageResp) (opts : HistoryOptions)
    (h1 : ∀ p ∈ rs, listHeuristic p = none)
    (h2 : ∀ p ∈ rs, historyHeuristic p = none) :
    listZapsFromPageOp rs = .ok [] ∧ viewHistoryFromPageOp opts rs = .ok [] := by
  have e1 : rs.findSome? listHeuristic = none := List.findSome?_eq_none_iff.mpr h1
  have e2 : rs.findSome? historyHeuristic = none := List.findSome?_eq_none_iff.mpr h2
  constructor <;> simp [listZapsFromPageOp, viewHistoryFromPageOp, e1, e2]

/-- C7, witness with a non-matching intercepted response. -/
theorem page_fallback_timeout_empty_witness :
    listZapsFromPageOp [⟨"https://example.com/", 500, none⟩] = .ok [] ∧
    viewHistoryFromPageOp ⟨none, none⟩ [⟨"https://example.com/", 500, none⟩] = .ok [] :=
  page_fallback_timeout_empty [⟨"https://example.com/", 500, none⟩] ⟨none, none⟩
    (by decide) (by decide)

/-- C8: when the UI fallback of a mutating operation exhausts all its
candidate selectors (and, for `toggleZap`, the row-content search)
without finding a control, the operation returns a structured
`success: false` result naming the diagnostic screenshot; the modelled
operations are total functions into `OpResult`, so no exception is
raised. -/
theorem ui_fallback_no_control_reported (runId zapId : String)
    (post patch : ReqOutcome) (uiR : PageUi) (uiT : ToggleUi)
    (t1 t2 u1 u2 : Nat) (s s2 : SessionState) (enable : Bool)
    (hpost : ∀ r, post = .resp r → respOk r = false)
    (hsel : ∀ sel ∈ replaySelectors, uiR.visibleMatch sel = false)
    (hpatch : ∃ m s1, apiPatchStep patch s2 = (Except.error m, s1))
    (htog : ∀ sel ∈ toggleSelectors zapId, uiT.visibleMatch sel = false)
    (heval : uiT.evaluateFound = false) :
    (replayRunOp runId post uiR t1 t2 s).1 =
      { success := false,
        message := "Could not find Replay button for run " ++ runId ++ ". See screenshot.",
        screenshot := some (screenshotDir ++ "/zapier-replay-" ++ toString t1 ++ ".png") } ∧
    (toggleZapOp zapId enable patch uiT u1 u2 s2).1 =
      { success := false,
        message := "Could not find toggle for Zap " ++ zapId ++ ". See screenshot.",
        screenshot := some (screenshotDir ++ "/zapier-toggle-" ++ toString u1 ++ ".png") } := by
  have hanyR : replaySelectors.any uiR.visibleMatch = false := by
    simp only [List.any_eq_false]
    intro x hx
    simp [hsel x hx]
  have hanyT : (toggleSelectors zapId).any uiT.visibleMatch = false := by
    simp only [List.any_eq_false]
    intro x hx
    simp [htog x hx]
  constructor
  · cases post with
    | netErr m => simp [replayRunOp, replayUiFallback, hanyR]
    | resp r =>
      have hr := hpost r rfl
      simp [replayRunOp, hr, replayUiFallback, hanyR]
  · obtain ⟨m, s1, hp⟩ := hpatch
    simp [toggleZapOp, hp, toggleUiFallback, hanyT, heval]

/-- C8, witness at concrete inputs where nothing matches. -/
theorem ui_fallback_no_control_reported_witness :
    (replayRunOp "9" (.netErr "x") ⟨fun _ => false, false⟩ 0 0 ⟨true, true⟩).1 =
      { success := false,
        message := "Could not find Replay button for run " ++ "9" ++ ". See screenshot.",
        screenshot := some (screenshotDir ++ "/zapier-replay-" ++ toString 0 ++ ".png") } ∧
    (toggleZapOp "55" false (.netErr "y") ⟨fun _ => false, false, false⟩
      0 0 ⟨true, true⟩).1 =
      { success := false,
        message := "Could not find toggle for Zap " ++ "55" ++ ". See screenshot.",
        screenshot := some (screenshotDir ++ "/zapier-toggle-" ++ toString 0 ++ ".png") } :=
  ui_fallback_no_control_reported "9" "55" (.netErr "x") (.netErr "y")
    ⟨fun _ => false, false⟩ ⟨fun _ => false, false, false⟩ 0 0 0 0
    ⟨true, true⟩ ⟨true, true⟩ false
    (fun _ hr => ReqOutcome.noConfusion hr)
    (fun _ _ => rfl) ⟨"y", ⟨true, true⟩, rfl⟩ (fun _ _ => rfl) rfl

/-- C9: for each documented synonym group (`title`/`name`,
`status`/`state`, `start_time`/`started_at`/`created_at`,
`error_message`/`error.message`), a raw item carrying a truthy value
under exactly one synonym — the remaining fields being identical and
free of the group's keys — normalizes to an identical output record
regardless of which synonym carried the value. -/
theorem normalizer_synonym_invariance (v : Json) (base : List (String × Json))
    (hv : truthy v = true)
    (hfresh : ∀ k ∈ (["title", "name", "status", "state", "start_time",
      "started_at", "created_at", "error_message", "error"] : List String),
      lookupD base k = .undef) :
    normalizeZap (.obj (("title", v) :: base)) =
      normalizeZap (.obj (("name", v) :: base)) ∧
    normalizeZap (.obj (("status", v) :: base)) =
      normalizeZap (.obj (("state", v) :: base)) ∧
    normalizeRun (.obj (("start_time", v) :: base)) =
      normalizeRun (.obj (("started_at", v) :: base)) ∧
    normalizeRun (.obj (("started_at", v) :: base)) =
      normalizeRun (.obj (("created_at", v) :: base)) ∧
    normalizeRun (.obj (("error_message", v) :: base)) =
      normalizeRun (.obj (("error", .obj [("message", v)]) :: base)) ∧
    normalizeStep (.obj (("error_message", v) :: base)) =
      normalizeStep (.obj (("error", .obj [("message", v)]) :: base)) := by
  have hti := hfresh "title" (by decide)
  have hna := hfresh "name" (by decide)
  have hst := hfresh "status" (by decide)
  have hse := hfresh "state" (by decide)
  have hs1 := hfresh "start_time" (by decide)
  have hs2 := hfresh "started_at" (by decide)
  have hs3 := hfresh "created_at" (by decide)
  have he1 := hfresh "error_message" (by decide)
  have he2 := hfresh "error" (by decide)
  have hu : truthy Json.undef = false := rfl
  refine ⟨?_, ?_, ?_, ?_, ?_, ?_⟩ <;>
    simp [normalizeZap, normalizeRun, normalizeStep, jGet, jGetQ, lookupD, jOr,
      hv, hu, hti, hna, hst, hse, hs1, hs2, hs3, he1, he2]

/-- C9, witness at a concrete value and base record. -/
theorem normalizer_synonym_invariance_witness :
    normalizeZap (.obj [("title", .str "X"), ("id", .num 1)]) =
      normalizeZap (.obj [("name", .str "X"), ("id", .num 1)]) ∧
    normalizeZap (.obj [("status", .str "X"), ("id", .num 1)]) =
      normalizeZap (.obj [("state", .str "X"), ("id", .num 1)]) ∧
    normalizeRun (.obj [("start_time", .str "X"), ("id", .num 1)]) =
      normalizeRun (.obj [("started_at", .str "X"), ("id", .num 1)]) ∧
    normalizeRun (.obj [("started_at", .str "X"), ("id", .num 1)]) =
      normalizeRun (.obj [("created_at", .str "X"), ("id", .num 1)]) ∧
    normalizeRun (.obj [("error_message", .str "X"), ("id", .num 1)]) =
      normalizeRun (.obj [("error", .obj [("message", .str "X")]), ("id", .num 1)]) ∧
    normalizeStep (.obj [("error_message", .str "X"), ("id", .num 1)]) =
      normalizeStep (.obj [("error", .obj [("message", .str "X")]), ("id", .num 1)]) :=
  normalizer_synonym_invariance (.str "X") [("id", .num 1)] rfl (by decide)

/-- C10: the page-interception fallback of `viewHistory` truncates the
resolved run list client-side to at most `limit` records (25 when no
limit is given), while the primary API path returns every record of
the parsed response without client-side truncation. -/
theorem viewHistory_limit_truncation (opts : HistoryOptions) (rs : List PageResp)
    (xs items : List Json) (resp : HttpResp) (s : SessionState)
    (hfb : rs.findSome? historyHeuristic = some (.arr xs))
    (hok : 200 ≤ resp.status ∧ resp.status ≤ 299)
    (hext : extractItems resp.json = some items) :
    viewHistoryFromPageOp opts rs =
      .ok ((xs.take (effLimit opts.limit)).map normalizeRun) ∧
    ((xs.take (effLimit opts.limit)).map normalizeRun).length ≤ effLimit opts.limit ∧
    effLimit none = 25 ∧
    (viewHistoryOp opts resp rs s).1 = .ok (items.map normalizeRun) ∧
    (items.map normalizeRun).length = items.length := by
  have h1 : apiGetStep resp s = (.ok resp.json, s) := by
    unfold apiGetStep
    rw [if_pos hok]
  refine ⟨?_, ?_, rfl, ?_, by simp⟩
  · simp [viewHistoryFromPageOp, hfb]
  · simp only [List.length_map, List.length_take]
    exact min_le_left _ _
  · simp [viewHistoryOp, viewHistoryTry, h1, hext]

/-- C10, witness at concrete fallback and primary responses. -/
theorem viewHistory_limit_truncation_witness :
    viewHistoryFromPageOp ⟨none, some 3⟩
      [⟨"https://zapier.com/api/v4/zap-runs", 200,
        some (.obj [("objects", .arr [.obj [("id", .num 1)]])])⟩] =
      .ok (([(Json.obj [("id", .num 1)])].take (effLimit (some 3))).map normalizeRun) ∧
    ((([(Json.obj [("id", .num 1)])].take (effLimit (some 3))).map normalizeRun).length ≤
      effLimit (some 3)) ∧
    effLimit none = 25 ∧
    (viewHistoryOp ⟨none, some 3⟩ ⟨200, "OK", "", .obj [("objects", .arr [.obj [("id", .num 2)]])]⟩
      [⟨"https://zapier.com/api/v4/zap-runs", 200,
        some (.obj [("objects", .arr [.obj [("id", .num 1)]])])⟩] ⟨true, true⟩).1 =
      .ok ([(Json.obj [("id", .num 2)])].map normalizeRun) ∧
    (([(Json.obj [("id", .num 2)])].map normalizeRun).length =
      [(Json.obj [("id", .num 2)])].length) :=
  viewHistory_limit_truncation ⟨none, some 3⟩
    [⟨"https://zapier.com/api/v4/zap-runs", 200,
      some (.obj [("objects", .arr [.obj [("id", .num 1)]])])⟩]
    [(Json.obj [("id", .num 1)])] [(Json.obj [("id", .num 2)])]
    ⟨200, "OK", "", .obj [("objects", .arr [.obj [("id", .num 2)]])]⟩
    ⟨true, true⟩ (by decide) (by decide) (by decide)

end ZapierClient
